import Mathlib

/-!
A formal model of the PDP tracker core (`pdp_tracker.py`): ingestion and
normalization of spreadsheet rows, office/company aggregation, the snapshot
store held behind one sqlite connection, the baseline comparator and the
progress report.

Modelling conventions:
* Python floats carrying currency amounts are modelled as exact rationals
  (`ℚ`); all arithmetic the claims mention (sums, differences, division with
  an explicit positivity guard) is exact on the values involved.
* A spreadsheet cell is either a pandas null (`NaN`), a string, or a number.
* The sqlite connection is a pair of database states: `committed` (what other
  connections / a reopened database would see) and `pending` (what reads on
  this same connection see).  `INSERT` statements mutate `pending`;
  `conn.commit()` copies `pending` into `committed`.  The code never calls
  `rollback`.
* `cursor.execute` is a fallible external call (disk I/O error, lock
  contention, ...).  An `ExecOracle` says whether the k-th execute of one
  ingestion raises; the `except` branches of the Python code are modelled
  by propagating the connection state at the point of the raise.
* Python exceptions that escape an operation (`TypeError` from indexing
  `None`, `ZeroDivisionError`) are modelled by an `Except PyError` result.
-/

set_option allowUnsafeReducibility true in
attribute [semireducible] Rat.add Rat.mul Rat.inv Rat.sub Rat.div Rat.ofScientific

/-- A raw spreadsheet cell as seen by pandas: a null marker (`NaN`),
a string, or a numeric value. -/
inductive Cell
  | na
  | str (s : String)
  | num (q : ℚ)
deriving DecidableEq

/-- Python `str(value)` on a cell.  `str(float("nan")) = "nan"`.  The exact
digit string Python prints for a number is abstracted by `toString`; no
property below depends on the rendering of numeric cells. -/
def Cell.pyStr : Cell → String
  | .na => "nan"
  | .str s => s
  | .num q => toString q

/-- ASCII lowercasing of one character (Python `str.lower` on the ASCII
headers and keywords this tool deals in). -/
def pyLowerChar (c : Char) : Char :=
  if 65 ≤ c.toNat ∧ c.toNat ≤ 90 then Char.ofNat (c.toNat + 32) else c

/-- Python `s.lower()`. -/
def pyLower (s : String) : String := (s.toList.map pyLowerChar).asString

/-- Python `str.strip()` whitespace. -/
def isPySpace (c : Char) : Bool :=
  c = ' ' || c = '\t' || c = '\n' || c = '\r' || c = '\x0b' || c = '\x0c'

/-- Python `s.strip()`. -/
def pyStrip (s : String) : String :=
  (((s.toList.dropWhile isPySpace).reverse.dropWhile isPySpace).reverse).asString

/-- `str(value).replace('$', '').replace(',', '')` (line 254): every dollar
sign and comma is removed, wherever it occurs. -/
def removeDollarComma (s : String) : String :=
  (s.toList.filter (fun c => !(c = '$' || c = ','))).asString

/-- Decimal digits to a natural number. -/
def digitsVal (cs : List Char) : ℕ :=
  cs.foldl (fun a c => a * 10 + (c.toNat - 48)) 0

/-- Exponent digits of a float literal: one or more decimal digits. -/
def parseExpDigits : List Char → Option ℤ
  | [] => none
  | cs => if cs.all Char.isDigit then some (digitsVal cs : ℤ) else none

/-- Optionally signed exponent digits. -/
def parseSignedExp : List Char → Option ℤ
  | '-' :: t => (parseExpDigits t).map (fun n => -n)
  | '+' :: t => parseExpDigits t
  | t => parseExpDigits t

/-- The tail of a float literal after the mantissa: empty, or an
exponent marker followed by a signed digit string. -/
def parseExpPart : List Char → Option ℤ
  | [] => some 0
  | 'e' :: t => parseSignedExp t
  | 'E' :: t => parseSignedExp t
  | _ => none

/-- `10 ^ n` as a rational. -/
def tenPow (n : ℕ) : ℚ := ((10 : ℕ) ^ n : ℕ)

/-- Scale a mantissa by a signed decimal exponent. -/
def applyExp (q : ℚ) : ℤ → ℚ
  | .ofNat n => q * tenPow n
  | .negSucc n => q / tenPow (n + 1)

/-- Model of Python `float(s)` on decimal literals: surrounding whitespace,
an optional sign, a digit string with an optional fractional part (at least
one digit overall), and an optional exponent.  The special literals
`inf`/`nan`, which have no rational value, are outside the modelled domain
and rejected; no claim below touches them. -/
def pyFloat (s : String) : Option ℚ :=
  let cs := (pyStrip s).toList
  let sc : Bool × List Char :=
    match cs with
    | '-' :: t => (true, t)
    | '+' :: t => (false, t)
    | _ => (false, cs)
  let ip := sc.2.takeWhile Char.isDigit
  let r1 := sc.2.dropWhile Char.isDigit
  let fr : List Char × List Char :=
    match r1 with
    | '.' :: t => (t.takeWhile Char.isDigit, t.dropWhile Char.isDigit)
    | _ => ([], r1)
  if ip.isEmpty && fr.1.isEmpty then none
  else
    match parseExpPart fr.2 with
    | none => none
    | some e =>
      let v := applyExp ((digitsVal (ip ++ fr.1) : ℚ) / tenPow fr.1.length) e
      some (if sc.1 then -v else v)

/-- `PDPTracker._safe_float` (pdp_tracker.py lines 249-256): `pd.isna` sends
a null to `0.0`; otherwise `str(value)` is stripped of every `$` and `,` and
fed to `float`, and any parse failure yields `0.0`.  A numeric cell
round-trips through `str`/`float` to itself. -/
def _safe_float : Cell → ℚ
  | .na => 0
  | .num q => q
  | .str s => (pyFloat (removeDollarComma s)).getD 0

/-- Is `needle` a contiguous substring of `hay` (Python `in` on strings)? -/
def subList : List Char → List Char → Bool
  | _, [] => true
  | [], _ :: _ => false
  | h :: t, n :: nt => (n :: nt).isPrefixOf (h :: t) || subList t (n :: nt)

/-- Python `needle in hay` for strings. -/
def strContains (hay needle : String) : Bool :=
  subList hay.toList needle.toList

/-- `PDPTracker._find_column` (lines 240-247): scan headers in order and,
for each, candidate keywords in order; return the first header whose
lowercased text contains a keyword.  We return the header's index, which is
how a row cell is then addressed. -/
def _find_column (cols : List String) (names : List String) : Option ℕ :=
  cols.findIdx? (fun col => names.any (fun name => strContains (pyLower col) (pyLower name)))

/-- Keyword list for the agent column (line 161). -/
def agentKeywords : List String := ["agent", "collector", "name", "employee"]

/-- Keyword list for the office column (line 162). -/
def officeKeywords : List String := ["office", "location", "branch", "dept"]

/-- Keyword list for the current-month column (line 163). -/
def currentKeywords : List String := ["current", "this month", "current month"]

/-- Keyword list for the following-month column (line 164). -/
def followingKeywords : List String := ["following", "next month", "following month"]

/-- Agent names that make a row a blank/total/summary row (line 176). -/
def skipNames : List String := ["nan", "total", "grand total", ""]

/-- Cell of a row at a column index; pandas supplies `NaN` for a missing
cell. -/
def cellAt (row : List Cell) (i : ℕ) : Cell := row.getD i Cell.na

/-- `str(row[agent_col]).strip()` (line 175). -/
def rowAgentName (aidx : ℕ) (row : List Cell) : String :=
  pyStrip (cellAt row aidx).pyStr

/-- `str(row[office_col]).strip() if office_col else 'Unknown'` (line 179). -/
def rowOffice (oidx : Option ℕ) (row : List Cell) : String :=
  match oidx with
  | some i => pyStrip (cellAt row i).pyStr
  | none => "Unknown"

/-- `self._safe_float(row[col]) if col else 0` (lines 180-181). -/
def rowAmount (idx : Option ℕ) (row : List Cell) : ℚ :=
  match idx with
  | some i => _safe_float (cellAt row i)
  | none => 0

/-- A tabular import: header names plus rows of cells. -/
structure DataFrame where
  columns : List String
  rows : List (List Cell)

/-- A row of the `baselines` table. -/
structure BaselineRow where
  id : ℕ
  baseline_date : String
  baseline_name : String
  description : String
deriving DecidableEq

/-- A row of the `agent_performance` table. -/
structure AgentRow where
  baseline_id : ℕ
  agent_name : String
  office : String
  current_month_promised : ℚ
  following_month_promised : ℚ
  total_promised : ℚ
  import_date : String
deriving DecidableEq

/-- A row of the `office_totals` table. -/
structure OfficeRow where
  baseline_id : ℕ
  office : String
  current_month_total : ℚ
  following_month_total : ℚ
  grand_total : ℚ
  agent_count : ℕ
  import_date : String
deriving DecidableEq

/-- A row of the `company_totals` table. -/
structure CompanyRow where
  baseline_id : ℕ
  total_current_month : ℚ
  total_following_month : ℚ
  grand_total : ℚ
  total_agents : ℕ
  total_offices : ℕ
  import_date : String
deriving DecidableEq

/-- The four tables, each in rowid (insertion) order. -/
structure DBState where
  baselines : List BaselineRow
  agents : List AgentRow
  offices : List OfficeRow
  companies : List CompanyRow
deriving DecidableEq

/-- A fresh, empty database. -/
def DBState.empty : DBState := ⟨[], [], [], []⟩

/-- The sqlite connection: the durable `committed` state and the `pending`
state of the open transaction.  Reads issued on this same connection see
`pending`; other connections see `committed`. -/
structure Conn where
  committed : DBState
  pending : DBState
deriving DecidableEq

/-- A connection onto a fresh database. -/
def Conn.new : Conn := ⟨.empty, .empty⟩

/-- `self.conn.commit()`: the open transaction becomes durable. -/
def Conn.commit (c : Conn) : Conn := ⟨c.pending, c.pending⟩

/-- `INSERT INTO agent_performance ...` applied to the open transaction. -/
def Conn.insAgent (c : Conn) (r : AgentRow) : Conn :=
  ⟨c.committed, ⟨c.pending.baselines, c.pending.agents ++ [r], c.pending.offices, c.pending.companies⟩⟩

/-- `INSERT INTO office_totals ...` applied to the open transaction. -/
def Conn.insOffice (c : Conn) (r : OfficeRow) : Conn :=
  ⟨c.committed, ⟨c.pending.baselines, c.pending.agents, c.pending.offices ++ [r], c.pending.companies⟩⟩

/-- `INSERT INTO company_totals ...` applied to the open transaction. -/
def Conn.insCompany (c : Conn) (r : CompanyRow) : Conn :=
  ⟨c.committed, ⟨c.pending.baselines, c.pending.agents, c.pending.offices, c.pending.companies ++ [r]⟩⟩

/-- `INSERT INTO baselines ...` applied to the open transaction. -/
def Conn.insBaseline (c : Conn) (r : BaselineRow) : Conn :=
  ⟨c.committed, ⟨c.pending.baselines ++ [r], c.pending.agents, c.pending.offices, c.pending.companies⟩⟩

/-- sqlite `AUTOINCREMENT`: one more than the largest id ever used. -/
def nextBaselineId (db : DBState) : ℕ :=
  (db.baselines.map (fun b => b.id)).foldr max 0 + 1

/-- `PDPTracker.create_baseline` (lines 105-119): insert a baseline row and
commit; returns the fresh id. -/
def create_baseline (conn : Conn) (name description today : String) : ℕ × Conn :=
  let id := nextBaselineId conn.pending
  (id, (conn.insBaseline ⟨id, today, name, description⟩).commit)

/-- The per-office accumulator dict entry (`office_totals[office]`,
lines 196-202). -/
structure OffTot where
  current : ℚ
  following : ℚ
  agents : ℕ
deriving DecidableEq

/-- One loop-body update of the `office_totals` dict (lines 195-202): the
dict preserves insertion order; a fresh office is appended with the row's
amounts and agent count 1. -/
def accumOffice : List (String × OffTot) → String → ℚ → ℚ → List (String × OffTot)
  | [], office, c, f => [(office, ⟨c, f, 1⟩)]
  | (o, t) :: rest, office, c, f =>
    if o == office then (o, ⟨t.current + c, t.following + f, t.agents + 1⟩) :: rest
    else (o, t) :: accumOffice rest office c f

/-- Whether the k-th `cursor.execute` call of an import succeeds or raises
(sqlite can raise on disk I/O errors, lock contention, ...). -/
abbrev ExecOracle := ℕ → Bool

/-- The environment in which no `cursor.execute` call raises. -/
def noFail : ExecOracle := fun _ => true

/-- The agent row built and inserted for one non-skipped dataframe row
(lines 179-191). -/
def agentRowOf (bid : ℕ) (idate : String) (aidx : ℕ) (oidx cidx fidx : Option ℕ)
    (row : List Cell) : AgentRow :=
  ⟨bid, rowAgentName aidx row, rowOffice oidx row, rowAmount cidx row,
   rowAmount fidx row, rowAmount cidx row + rowAmount fidx row, idate⟩

/-- The `for _, row in df.iterrows()` loop of `_process_dataframe`
(lines 174-202): each kept row is inserted into `agent_performance`, the
agent count is bumped and the office dict updated.  On an `execute` raise
the loop aborts carrying the connection state at that point (the `except`
branch at line 236 returns it untouched). -/
def processRows (env : ExecOracle) (bid : ℕ) (idate : String) (aidx : ℕ)
    (oidx cidx fidx : Option ℕ) :
    List (List Cell) → Conn → ℕ → ℕ → List (String × OffTot) →
    Except Conn (Conn × ℕ × ℕ × List (String × OffTot))
  | [], conn, k, ac, ots => .ok (conn, k, ac, ots)
  | row :: rest, conn, k, ac, ots =>
    if skipNames.contains (pyLower (rowAgentName aidx row)) then
      processRows env bid idate aidx oidx cidx fidx rest conn k ac ots
    else if env k then
      processRows env bid idate aidx oidx cidx fidx rest
        (conn.insAgent (agentRowOf bid idate aidx oidx cidx fidx row))
        (k + 1) (ac + 1)
        (accumOffice ots (rowOffice oidx row) (rowAmount cidx row) (rowAmount fidx row))
    else .error conn

/-- The office row inserted for one dict entry (lines 205-212). -/
def officeRowOf (bid : ℕ) (idate : String) (p : String × OffTot) : OfficeRow :=
  ⟨bid, p.1, p.2.current, p.2.following, p.2.current + p.2.following, p.2.agents, idate⟩

/-- The `for office, totals in office_totals.items()` loop (lines 204-212):
insert one `office_totals` row per dict entry, in dict (insertion) order. -/
def insertOfficeRows (env : ExecOracle) (bid : ℕ) (idate : String) :
    List (String × OffTot) → Conn → ℕ → Except Conn (Conn × ℕ)
  | [], conn, k => .ok (conn, k)
  | p :: rest, conn, k =>
    if env k then
      insertOfficeRows env bid idate rest (conn.insOffice (officeRowOf bid idate p)) (k + 1)
    else .error conn

/-- `PDPTracker._process_dataframe` (lines 150-238): resolve the four
columns, fail outright if the agent column is unresolved (lines 166-168),
run the row loop, insert the office rows, insert the one company row
(lines 214-225) and commit (line 227).  Any raise lands in the `except`
branch (lines 236-238), which returns `False` leaving the connection as it
was at the raise — no rollback is issued. -/
def _process_dataframe (env : ExecOracle) (df : DataFrame) (bid : ℕ)
    (idate : String) (conn : Conn) : Bool × Conn :=
  match _find_column df.columns agentKeywords with
  | none => (false, conn)
  | some aidx =>
    match processRows env bid idate aidx (_find_column df.columns officeKeywords)
        (_find_column df.columns currentKeywords)
        (_find_column df.columns followingKeywords) df.rows conn 0 0 [] with
    | .error c => (false, c)
    | .ok (c, k, agent_count, ots) =>
      match insertOfficeRows env bid idate ots c k with
      | .error c2 => (false, c2)
      | .ok (c2, k2) =>
        if env k2 then
          (true, (c2.insCompany
            ⟨bid, (ots.map (fun p => p.2.current)).sum,
             (ots.map (fun p => p.2.following)).sum,
             (ots.map (fun p => p.2.current)).sum + (ots.map (fun p => p.2.following)).sum,
             agent_count, ots.length, idate⟩).commit)
        else (false, c2)

/-- `SELECT * FROM baselines WHERE id = ?` + `fetchone()`: the first row in
rowid order with this id. -/
def findBaseline (db : DBState) (id : ℕ) : Option BaselineRow :=
  db.baselines.find? (fun b => b.id == id)

/-- `SELECT * FROM company_totals WHERE baseline_id = ?` + `fetchone()`. -/
def findCompany (db : DBState) (bid : ℕ) : Option CompanyRow :=
  db.companies.find? (fun t => t.baseline_id == bid)

/-- The `improvements` sub-dict of a comparison (lines 293-301). -/
structure Improvements where
  current_month : ℚ
  following_month : ℚ
  grand_total : ℚ
  agent_change : ℤ
  current_month_percent : ℚ
  following_month_percent : ℚ
  grand_total_percent : ℚ
deriving DecidableEq

/-- The dict returned by a successful comparison (lines 290-302). -/
structure ComparisonResult where
  baseline1_name : String
  baseline1_date : String
  baseline1_grand_total : ℚ
  baseline2_name : String
  baseline2_date : String
  baseline2_grand_total : ℚ
  improvements : Improvements
deriving DecidableEq

/-- A comparison either succeeds or returns an error dict
(`{"error": msg}`). -/
inductive CompareResult
  | error (msg : String)
  | ok (r : ComparisonResult)
deriving DecidableEq

/-- `PDPTracker.compare_baselines` (lines 266-302): look up both baseline
rows (error dict if either is missing), then both company-total rows (error
dict if either is missing), then return the deltas and the guarded
percentage changes. -/
def compare_baselines (conn : Conn) (id1 id2 : ℕ) : CompareResult :=
  match findBaseline conn.pending id1, findBaseline conn.pending id2 with
  | some b1, some b2 =>
    match findCompany conn.pending id1, findCompany conn.pending id2 with
    | some t1, some t2 =>
      .ok ⟨b1.baseline_name, b1.baseline_date, t1.grand_total,
           b2.baseline_name, b2.baseline_date, t2.grand_total,
           ⟨t2.total_current_month - t1.total_current_month,
            t2.total_following_month - t1.total_following_month,
            t2.grand_total - t1.grand_total,
            (t2.total_agents : ℤ) - (t1.total_agents : ℤ),
            if t1.total_current_month > 0 then
              (t2.total_current_month - t1.total_current_month) / t1.total_current_month * 100
            else 0,
            if t1.total_following_month > 0 then
              (t2.total_following_month - t1.total_following_month) / t1.total_following_month * 100
            else 0,
            if t1.grand_total > 0 then
              (t2.grand_total - t1.grand_total) / t1.grand_total * 100
            else 0⟩⟩
    | _, _ => .error "Company totals not found for one or both baselines"
  | _, _ => .error "One or both baselines not found"

/-- A Python exception escaping an operation. -/
inductive PyError
  | typeError
  | zeroDivisionError
deriving DecidableEq

/-- `SELECT id FROM baselines ORDER BY created_at DESC LIMIT 1`
(line 308): the most recently inserted baseline row. -/
def latestBaseline (db : DBState) : Option BaselineRow :=
  db.baselines.getLast?

/-- Descending insertion sort by grand total, modelling
`ORDER BY grand_total DESC` (line 343). -/
def insertByGrand (o : OfficeRow) : List OfficeRow → List OfficeRow
  | [] => [o]
  | h :: t => if o.grand_total > h.grand_total then o :: h :: t else h :: insertByGrand o t

/-- Sort office rows by grand total, descending. -/
def sortByGrandDesc : List OfficeRow → List OfficeRow
  | [] => []
  | h :: t => insertByGrand h (sortByGrandDesc t)

/-- The office-breakdown query of the report (lines 338-344). -/
def officeBreakdown (db : DBState) (bid : ℕ) : List OfficeRow :=
  sortByGrandDesc (db.offices.filter (fun o => o.baseline_id == bid))

/-- One office line of the report (line 349). -/
def officeLine (o : OfficeRow) : String :=
  "- " ++ o.office ++ ": " ++ toString o.grand_total ++ " (" ++ toString o.agent_count ++ " agents)\n"

/-- The report text (lines 317-349).  Python's currency formatting
`:,.2f` is abstracted by `toString`; no property below depends on digit
rendering. -/
def reportText (b : BaselineRow) (ct : CompanyRow) (offices : List OfficeRow) : String :=
  "POST DATED PAYMENT (PDP) PROGRESS REPORT\n" ++
  "Baseline: " ++ b.baseline_name ++ "\nDate: " ++ b.baseline_date ++
  "\nDescription: " ++ b.description ++
  "\nCurrent Month Promised: " ++ toString ct.total_current_month ++
  "\nFollowing Month Promised: " ++ toString ct.total_following_month ++
  "\nGrand Total: " ++ toString ct.grand_total ++
  "\nTotal Agents: " ++ toString ct.total_agents ++
  "\nTotal Offices: " ++ toString ct.total_offices ++
  "\nAverage per Agent: " ++ toString (ct.grand_total / (ct.total_agents : ℚ)) ++ "\n" ++
  String.join (offices.map officeLine)

/-- Body of `generate_progress_report` once a baseline id is in hand
(lines 313-351).  The f-string at lines 317-335 subscripts
`baseline_info` and then `company_total` — a missing row is `None` and
raises `TypeError` — and then divides the grand total by the agent count,
which raises `ZeroDivisionError` when `total_agents` is `0`. -/
def reportFor (conn : Conn) (bid : ℕ) : Except PyError String :=
  match findBaseline conn.pending bid with
  | none => .error .typeError
  | some b =>
    match findCompany conn.pending bid with
    | none => .error .typeError
    | some ct =>
      if ct.total_agents = 0 then .error .zeroDivisionError
      else .ok (reportText b ct (officeBreakdown conn.pending bid))

/-- `PDPTracker.generate_progress_report` (lines 304-351): with no id, use
the most recent baseline (returning a message string if there is none);
with an id, build the report for it. -/
def generate_progress_report (conn : Conn) (bid? : Option ℕ) : Except PyError String :=
  match bid? with
  | none =>
    match latestBaseline conn.pending with
    | none => .ok "No baselines found. Please import data first."
    | some b => reportFor conn b.id
  | some bid => reportFor conn bid

/-! ## Concrete inputs used to exercise the operations -/

/-- A one-row import: agent John in office X, current month `"$1,234.56"`,
following month `50`. -/
def c1df : DataFrame :=
  ⟨["Agent Name", "Office", "Current Month", "Following Month"],
   [[.str "John", .str "X", .str "$1,234.56", .num 50]]⟩

/-- The one-row import run against a fresh store with no execute failure. -/
def c1run : Bool × Conn := _process_dataframe noFail c1df 1 "2026-10-12" Conn.new

/-- First baseline row of the comparator example. -/
def cmpB1 : BaselineRow := ⟨1, "2026-01-01", "January baseline", ""⟩

/-- Second baseline row of the comparator example. -/
def cmpB2 : BaselineRow := ⟨2, "2026-02-01", "February baseline", ""⟩

/-- Company totals of baseline 1: grand total 0. -/
def cmpT1 : CompanyRow := ⟨1, 0, 0, 0, 3, 1, "2026-01-01"⟩

/-- Company totals of baseline 2: grand total 500. -/
def cmpT2 : CompanyRow := ⟨2, 300, 200, 500, 4, 2, "2026-02-01"⟩

/-- A committed store holding both baselines and both company rows. -/
def cmpConn : Conn :=
  ⟨⟨[cmpB1, cmpB2], [], [], [cmpT1, cmpT2]⟩, ⟨[cmpB1, cmpB2], [], [], [cmpT1, cmpT2]⟩⟩

/-- The comparison dict the comparator example must produce: deltas
300/200/500, one more agent, and all percentages 0 because every baseline-1
total is 0. -/
def cmpExpected : ComparisonResult :=
  ⟨"January baseline", "2026-01-01", 0, "February baseline", "2026-02-01", 500,
   ⟨300, 200, 500, 1, 0, 0, 0⟩⟩

/-- An environment in which only the first `cursor.execute` of an import
succeeds; the second raises (e.g. the database file hits an I/O error). -/
def c3env : ExecOracle := fun k => k == 0

/-- A one-row import into baseline 1 run in `c3env` against a store that
already committed the baseline row: the agent insert succeeds, the office
insert raises. -/
def c3run : Bool × Conn :=
  _process_dataframe c3env ⟨["Agent", "Office", "Current"],
    [[.str "John Doe", .str "East", .num 100]]⟩ 1 "2026-10-12"
    (create_baseline Conn.new "Before" "" "2026-10-12").2

/-- The agent row the failed import leaves behind. -/
def c3orphan : AgentRow := ⟨1, "John Doe", "East", 100, 0, 100, "2026-10-12"⟩

/-- A store after an import whose rows were all summary rows: baseline 1
exists and its company row records zero agents. -/
def c4conn : Conn :=
  (_process_dataframe noFail ⟨["Agent"], [[Cell.str "Total"]]⟩ 1 "2026-10-12"
    (create_baseline Conn.new "Empty import" "" "2026-10-12").2).2

/-- A store holding exactly one baseline, with id 1. -/
def c6conn : Conn := (create_baseline Conn.new "Only baseline" "" "2026-10-12").2

/-- A one-row import whose current-month cell is the well-formed negative
literal `"-100"`. -/
def c8run : Bool × Conn :=
  _process_dataframe noFail ⟨["Agent", "Current Month"],
    [[.str "Jane", .str "-100"]]⟩ 1 "2026-10-12" Conn.new

/-- A source cell normalizes to a non-negative amount: a null is sent to 0,
a parse failure is sent to 0, and a parseable cell carries a non-negative
value. -/
def nonNegSource : Cell → Prop
  | .na => True
  | .num q => 0 ≤ q
  | .str s => ∀ q, pyFloat (removeDollarComma s) = some q → 0 ≤ q

/-- A one-row import whose office column resolves but whose office cell is
null. -/
def c9run : Bool × Conn :=
  _process_dataframe noFail ⟨["Agent", "Office"],
    [[.str "John", Cell.na]]⟩ 1 "2026-10-12" Conn.new

/-- An import whose rows are all skipped: a "Total" summary row, a blank
(null) row, and a whitespace-only row. -/
def c10df : DataFrame :=
  ⟨["Agent"], [[Cell.str "Total"], [Cell.na], [Cell.str "  "]]⟩

/-! ## Structural lemmas about one import -/

/-- Pointwise sums distribute over a list sum. -/
theorem sum_map_add {α : Type} (l : List α) (f g : α → ℚ) :
    (l.map (fun x => f x + g x)).sum = (l.map f).sum + (l.map g).sum := by
  induction l with
  | nil => simp
  | cons h t ih => simp only [List.map_cons, List.sum_cons, ih]; ring

/-- A successful pass of the row loop only appends agent rows, and every
appended row carries the import's baseline id and a redundantly stored
total equal to current + following. -/
theorem processRows_ok (env : ExecOracle) (bid : ℕ) (idate : String) (aidx : ℕ)
    (oidx cidx fidx : Option ℕ) (rows : List (List Cell)) :
    ∀ conn k ac ots conn2 k2 ac2 ots2,
      processRows env bid idate aidx oidx cidx fidx rows conn k ac ots =
        .ok (conn2, k2, ac2, ots2) →
      conn2.committed = conn.committed ∧
      conn2.pending.baselines = conn.pending.baselines ∧
      conn2.pending.offices = conn.pending.offices ∧
      conn2.pending.companies = conn.pending.companies ∧
      ∃ A, conn2.pending.agents = conn.pending.agents ++ A ∧
        ∀ r ∈ A, r.baseline_id = bid ∧
          r.total_promised = r.current_month_promised + r.following_month_promised := by
  induction rows with
  | nil =>
    intro conn k ac ots conn2 k2 ac2 ots2 h
    simp only [processRows, Except.ok.injEq, Prod.mk.injEq] at h
    obtain ⟨rfl, -, -, -⟩ := h
    exact ⟨rfl, rfl, rfl, rfl, [], by simp, by simp⟩
  | cons row rest ih =>
    intro conn k ac ots conn2 k2 ac2 ots2 h
    simp only [processRows] at h
    split at h
    · exact ih _ _ _ _ _ _ _ _ h
    · split at h
      · obtain ⟨hc, hb, ho, hcp, A, hA, hprops⟩ := ih _ _ _ _ _ _ _ _ h
        simp only [Conn.insAgent] at hc hb ho hcp hA
        refine ⟨hc, hb, ho, hcp,
          agentRowOf bid idate aidx oidx cidx fidx row :: A, ?_, ?_⟩
        · simp only [hA, List.append_assoc, List.singleton_append]
        · intro r hr
          rcases List.mem_cons.mp hr with hr | hr
          · subst hr; exact ⟨rfl, rfl⟩
          · exact hprops r hr
      · exact absurd h (by simp)

/-- A successful pass of the office-insert loop appends exactly the rows
built from the office dict, in order, and changes nothing else. -/
theorem insertOfficeRows_ok (env : ExecOracle) (bid : ℕ) (idate : String)
    (ots : List (String × OffTot)) :
    ∀ conn k conn2 k2,
      insertOfficeRows env bid idate ots conn k = .ok (conn2, k2) →
      conn2.committed = conn.committed ∧
      conn2.pending.baselines = conn.pending.baselines ∧
      conn2.pending.agents = conn.pending.agents ∧
      conn2.pending.companies = conn.pending.companies ∧
      conn2.pending.offices = conn.pending.offices ++ ots.map (officeRowOf bid idate) := by
  induction ots with
  | nil =>
    intro conn k conn2 k2 h
    simp only [insertOfficeRows, Except.ok.injEq, Prod.mk.injEq] at h
    obtain ⟨rfl, -⟩ := h
    exact ⟨rfl, rfl, rfl, rfl, by simp⟩
  | cons p rest ih =>
    intro conn k conn2 k2 h
    simp only [insertOfficeRows] at h
    split at h
    · obtain ⟨hc, hb, ha, hcp, ho⟩ := ih _ _ _ _ h
      simp only [Conn.insOffice] at hc hb ha hcp ho
      exact ⟨hc, hb, ha, hcp, by simp only [ho, List.append_assoc, List.singleton_append,
        List.map_cons]⟩
    · exact absurd h (by simp)

/-- C1: every successfully imported baseline writes agent rows whose
stored total is current + following, office rows whose grand total is
current + following, and one company row whose grand total is the sum of
the written office grand totals; when the baseline had no office rows
before the import (the normal case: a fresh baseline per import), the
company grand total is the sum over all office rows of that baseline. -/
theorem pdp_C1 (env : ExecOracle) (df : DataFrame) (bid : ℕ) (idate : String)
    (conn conn2 : Conn)
    (h : _process_dataframe env df bid idate conn = (true, conn2)) :
    ∃ A O ct,
      conn2.pending.agents = conn.pending.agents ++ A ∧
      conn2.pending.offices = conn.pending.offices ++ O ∧
      conn2.pending.companies = conn.pending.companies ++ [ct] ∧
      (∀ r ∈ A, r.baseline_id = bid ∧
        r.total_promised = r.current_month_promised + r.following_month_promised) ∧
      (∀ o ∈ O, o.baseline_id = bid ∧
        o.grand_total = o.current_month_total + o.following_month_total) ∧
      ct.baseline_id = bid ∧
      ct.grand_total = (O.map (fun o => o.grand_total)).sum ∧
      (conn.pending.offices.filter (fun o => o.baseline_id == bid) = [] →
        ((conn2.pending.offices.filter (fun o => o.baseline_id == bid)).map
          (fun o => o.grand_total)).sum = ct.grand_total) ∧
      conn2.committed = conn2.pending := by
  unfold _process_dataframe at h
  cases hfa : _find_column df.columns agentKeywords with
  | none => rw [hfa] at h; dsimp only at h; exact absurd h (by simp)
  | some aidx =>
    rw [hfa] at h; dsimp only at h
    cases hrows : processRows env bid idate aidx (_find_column df.columns officeKeywords)
        (_find_column df.columns currentKeywords)
        (_find_column df.columns followingKeywords) df.rows conn 0 0 [] with
    | error c => rw [hrows] at h; dsimp only at h; exact absurd h (by simp)
    | ok res =>
      obtain ⟨c, k, agent_count, ots⟩ := res
      rw [hrows] at h; dsimp only at h
      cases hoff : insertOfficeRows env bid idate ots c k with
      | error c2 => rw [hoff] at h; dsimp only at h; exact absurd h (by simp)
      | ok res2 =>
        obtain ⟨c2, k2⟩ := res2
        rw [hoff] at h; dsimp only at h
        by_cases henv : env k2 = true
        · simp only [henv, if_true, Prod.mk.injEq, true_and] at h
          subst h
          obtain ⟨-, -, hro, hrc, A, hra, hprops⟩ :=
            processRows_ok env bid idate aidx _ _ _ df.rows _ _ _ _ _ _ _ _ hrows
          obtain ⟨-, -, hoa, hoc, hoo⟩ := insertOfficeRows_ok env bid idate ots _ _ _ _ hoff
          refine ⟨A, ots.map (officeRowOf bid idate),
            ⟨bid, (ots.map (fun p => p.2.current)).sum, (ots.map (fun p => p.2.following)).sum,
             (ots.map (fun p => p.2.current)).sum + (ots.map (fun p => p.2.following)).sum,
             agent_count, ots.length, idate⟩, ?_, ?_, ?_, ?_, ?_, rfl, ?_, ?_, rfl⟩
          · simp only [Conn.commit, Conn.insCompany, hoa, hra]
          · simp only [Conn.commit, Conn.insCompany, hoo, hro]
          · simp only [Conn.commit, Conn.insCompany, hoc, hrc]
          · exact hprops
          · intro o ho
            obtain ⟨p, hp, rfl⟩ := List.mem_map.mp ho
            exact ⟨rfl, rfl⟩
          · simp only [List.map_map, Function.comp_def, officeRowOf]
            exact (sum_map_add ots (fun p => p.2.current) (fun p => p.2.following)).symm
          · intro hfilt
            simp only [Conn.commit, Conn.insCompany, hoo, hro, List.filter_append, hfilt,
              List.nil_append]
            have hall : (ots.map (officeRowOf bid idate)).filter
                (fun o => o.baseline_id == bid) = ots.map (officeRowOf bid idate) := by
              apply List.filter_eq_self.mpr
              intro o ho
              obtain ⟨p, hp, rfl⟩ := List.mem_map.mp ho
              simp [officeRowOf]
            rw [hall]
            simp only [List.map_map, Function.comp_def, officeRowOf]
            exact sum_map_add ots (fun p => p.2.current) (fun p => p.2.following)
        · simp [henv] at h

/-- A row loop in which every row is a blank/total/summary row leaves
every accumulator untouched. -/
theorem processRows_all_skip (env : ExecOracle) (bid : ℕ) (idate : String)
    (aidx : ℕ) (oidx cidx fidx : Option ℕ) (rows : List (List Cell))
    (hrows : ∀ row ∈ rows, skipNames.contains (pyLower (rowAgentName aidx row)) = true) :
    ∀ conn k ac ots,
      processRows env bid idate aidx oidx cidx fidx rows conn k ac ots =
        .ok (conn, k, ac, ots) := by
  induction rows with
  | nil => intro conn k ac ots; simp [processRows]
  | cons row rest ih =>
    intro conn k ac ots
    have hskip := hrows row (List.mem_cons_self row rest)
    simp only [processRows, hskip, if_true]
    exact ih (fun r hr => hrows r (List.mem_cons_of_mem row hr)) conn k ac ots

/-- Witness for C1: the one-row import with a currency string and a numeric
cell satisfies every invariant of `pdp_C1`. -/
theorem pdp_C1_witness :
    ∃ A O ct,
      c1run.2.pending.agents = Conn.new.pending.agents ++ A ∧
      c1run.2.pending.offices = Conn.new.pending.offices ++ O ∧
      c1run.2.pending.companies = Conn.new.pending.companies ++ [ct] ∧
      (∀ r ∈ A, r.baseline_id = 1 ∧
        r.total_promised = r.current_month_promised + r.following_month_promised) ∧
      (∀ o ∈ O, o.baseline_id = 1 ∧
        o.grand_total = o.current_month_total + o.following_month_total) ∧
      ct.baseline_id = 1 ∧
      ct.grand_total = (O.map (fun o => o.grand_total)).sum ∧
      (Conn.new.pending.offices.filter (fun o => o.baseline_id == 1) = [] →
        ((c1run.2.pending.offices.filter (fun o => o.baseline_id == 1)).map
          (fun o => o.grand_total)).sum = ct.grand_total) ∧
      c1run.2.committed = c1run.2.pending :=
  pdp_C1 noFail c1df 1 "2026-10-12" Conn.new c1run.2 (by decide)

/-- C10: an import whose agent column resolves but whose rows are all
blank/total/summary rows succeeds, writes no agent row and no office row,
and writes exactly one company row, an all-zero one. -/
theorem pdp_C10 (df : DataFrame) (bid : ℕ) (idate : String) (conn : Conn) (aidx : ℕ)
    (h1 : _find_column df.columns agentKeywords = some aidx)
    (h2 : ∀ row ∈ df.rows, skipNames.contains (pyLower (rowAgentName aidx row)) = true) :
    _process_dataframe noFail df bid idate conn =
      (true, (conn.insCompany ⟨bid, 0, 0, 0, 0, 0, idate⟩).commit) := by
  unfold _process_dataframe
  rw [h1]
  dsimp only
  rw [processRows_all_skip noFail bid idate aidx _ _ _ df.rows h2 conn 0 0 []]
  simp [insertOfficeRows, noFail]

/-- Witness for C10: three skipped rows produce a successful import whose
only effect is one all-zero company row. -/
theorem pdp_C10_witness :
    _process_dataframe noFail c10df 1 "2026-10-12" Conn.new =
      (true, (Conn.new.insCompany ⟨1, 0, 0, 0, 0, 0, "2026-10-12"⟩).commit) :=
  pdp_C10 c10df 1 "2026-10-12" Conn.new 0 (by decide) (by decide)

/-- C2: when both baseline rows and both company rows exist, the comparator
returns the three deltas, the agent delta, and the guarded percentage
changes (0 whenever the baseline-1 total is not positive); in particular a
grand total moving from 0 to 500 reports a delta of 500 and a percentage
of 0. -/
theorem pdp_C2 (conn : Conn) (id1 id2 : ℕ) (b1 b2 : BaselineRow) (t1 t2 : CompanyRow)
    (h1 : findBaseline conn.pending id1 = some b1)
    (h2 : findBaseline conn.pending id2 = some b2)
    (h3 : findCompany conn.pending id1 = some t1)
    (h4 : findCompany conn.pending id2 = some t2) :
    compare_baselines conn id1 id2 =
      .ok ⟨b1.baseline_name, b1.baseline_date, t1.grand_total,
           b2.baseline_name, b2.baseline_date, t2.grand_total,
           ⟨t2.total_current_month - t1.total_current_month,
            t2.total_following_month - t1.total_following_month,
            t2.grand_total - t1.grand_total,
            (t2.total_agents : ℤ) - (t1.total_agents : ℤ),
            if t1.total_current_month > 0 then
              (t2.total_current_month - t1.total_current_month) / t1.total_current_month * 100
            else 0,
            if t1.total_following_month > 0 then
              (t2.total_following_month - t1.total_following_month) / t1.total_following_month * 100
            else 0,
            if t1.grand_total > 0 then
              (t2.grand_total - t1.grand_total) / t1.grand_total * 100
            else 0⟩⟩ ∧
    (compare_baselines cmpConn 1 2 = .ok cmpExpected ∧
      cmpExpected.improvements.grand_total = 500 ∧
      cmpExpected.improvements.grand_total_percent = 0) := by
  constructor
  · unfold compare_baselines
    rw [h1, h2]
    dsimp only
    rw [h3, h4]
  · exact ⟨by decide, by decide, by decide⟩

/-- Witness for C2: applying the comparator contract to the concrete store
with grand totals 0 and 500. -/
theorem pdp_C2_witness :
    compare_baselines cmpConn 1 2 = .ok cmpExpected ∧
    cmpExpected.improvements.grand_total = 500 ∧
    cmpExpected.improvements.grand_total_percent = 0 :=
  (pdp_C2 cmpConn 1 2 cmpB1 cmpB2 cmpT1 cmpT2
    (by decide) (by decide) (by decide) (by decide)).2

/-- C5: whenever either baseline row or either company row is missing, the
comparator returns an error dict instead of raising. -/
theorem pdp_C5 (conn : Conn) (id1 id2 : ℕ)
    (h : findBaseline conn.pending id1 = none ∨ findBaseline conn.pending id2 = none ∨
         findCompany conn.pending id1 = none ∨ findCompany conn.pending id2 = none) :
    ∃ msg, compare_baselines conn id1 id2 = .error msg := by
  unfold compare_baselines
  cases hb1 : findBaseline conn.pending id1 with
  | none => exact ⟨_, rfl⟩
  | some b1 =>
    cases hb2 : findBaseline conn.pending id2 with
    | none => exact ⟨_, rfl⟩
    | some b2 =>
      cases hc1 : findCompany conn.pending id1 with
      | none => exact ⟨_, rfl⟩
      | some t1 =>
        cases hc2 : findCompany conn.pending id2 with
        | none => exact ⟨_, rfl⟩
        | some t2 =>
          rcases h with h | h | h | h
          · rw [h] at hb1; exact Option.noConfusion hb1
          · rw [h] at hb2; exact Option.noConfusion hb2
          · rw [h] at hc1; exact Option.noConfusion hc1
          · rw [h] at hc2; exact Option.noConfusion hc2

/-- Witness for C5: comparing two ids against an empty store yields an
error result. -/
theorem pdp_C5_witness : ∃ msg, compare_baselines Conn.new 1 2 = .error msg :=
  pdp_C5 Conn.new 1 2 (Or.inl (by decide))

/-- C7: currency normalization strips the dollar signs and commas and
parses the rest as a decimal number; `"$1,234.56"` becomes `1234.56`, the
unparseable `"N/A"` becomes `0.0`, a null cell becomes `0.0`, and in
general the result is the parsed value with every parse failure sent
to `0.0` — the function is total, so no cell aborts ingestion. -/
theorem pdp_C7 (s : String) :
    _safe_float (Cell.str "$1,234.56") = 1234.56 ∧
    _safe_float (Cell.str "N/A") = 0 ∧
    _safe_float Cell.na = 0 ∧
    _safe_float (Cell.str s) = (pyFloat (removeDollarComma s)).getD 0 :=
  ⟨by decide, by decide, rfl, rfl⟩

/-- Counterexample to C8 as stated: the well-formed negative cell `"-100"`
is parsed, not zeroed, so the import stores a negative
`current_month_promised`. -/
theorem pdp_C8_counterexample :
    c8run.1 = true ∧
    c8run.2.pending.agents =
      [⟨1, "Jane", "Unknown", -100, 0, -100, "2026-10-12"⟩] ∧
    (⟨1, "Jane", "Unknown", -100, 0, -100, "2026-10-12"⟩ : AgentRow).current_month_promised < 0 :=
  ⟨by decide, by decide, by decide⟩

/-- C8 as amended: malformed and null cells normalize to 0 (never an
error), so a monetary field is non-negative whenever its source cell does
not parse to a negative number; a well-formed negative literal, however, is
stored as a negative amount. -/
theorem pdp_C8_amended (idx : Option ℕ) (row : List Cell)
    (h : ∀ i, idx = some i → nonNegSource (cellAt row i)) :
    0 ≤ rowAmount idx row := by
  cases idx with
  | none => simp [rowAmount]
  | some i =>
    have hi := h i rfl
    simp only [rowAmount]
    cases hc : cellAt row i with
    | na => simp [_safe_float]
    | num q => rw [hc] at hi; simpa [_safe_float, nonNegSource] using hi
    | str s =>
      rw [hc] at hi
      simp only [_safe_float]
      cases hp : pyFloat (removeDollarComma s) with
      | none => simp
      | some q => simpa using hi q hp

/-- Witness for the amended C8: a null current-month cell yields a
non-negative amount. -/
theorem pdp_C8_amended_witness : 0 ≤ rowAmount (some 0) [Cell.na] :=
  pdp_C8_amended (some 0) [Cell.na] (fun i hi => by cases hi; trivial)

/-- Counterexample to C9 as stated: with the office column resolved but the
office cell null, the stored office is the string `"nan"` (the stringified
null), not `"Unknown"`. -/
theorem pdp_C9_counterexample :
    c9run.2.pending.agents = [⟨1, "John", "nan", 0, 0, 0, "2026-10-12"⟩] ∧
    ("nan" : String) ≠ "Unknown" :=
  ⟨by decide, by decide⟩

/-- C9 as amended: the office defaults to `"Unknown"` only when the office
column is unresolved; a resolved column with a null cell yields the
string `"nan"`. -/
theorem pdp_C9_amended (row : List Cell) (i : ℕ) (h : cellAt row i = Cell.na) :
    rowOffice none row = "Unknown" ∧ rowOffice (some i) row = "nan" := by
  refine ⟨rfl, ?_⟩
  simp only [rowOffice, h, Cell.pyStr]
  decide

/-- Witness for the amended C9: a single-cell null row. -/
theorem pdp_C9_amended_witness :
    rowOffice none [Cell.na] = "Unknown" ∧ rowOffice (some 0) [Cell.na] = "nan" :=
  pdp_C9_amended [Cell.na] 0 rfl

/-- Evidence for C3 (code bug): when the office insert of an import raises
after the agent insert succeeded, the operation reports failure but issues
no rollback — the orphan agent row stays in the open transaction, is
visible to every later read on the connection, and the next commit (here a
later `create_baseline`) makes it durable while the baseline still has no
company row. -/
theorem pdp_C3_bug :
    c3run.1 = false ∧
    c3run.2.committed.agents = [] ∧
    c3run.2.pending.agents = [c3orphan] ∧
    c3run.2.pending.offices = [] ∧
    findCompany c3run.2.pending 1 = none ∧
    (create_baseline c3run.2 "After" "" "2026-10-13").2.committed.agents = [c3orphan] ∧
    findCompany (create_baseline c3run.2 "After" "" "2026-10-13").2.committed 1 = none :=
  ⟨by decide, by decide, by decide, by decide, by decide, by decide, by decide⟩

/-- Evidence for C4 (code bug): baseline 1 has a company row with zero
agents — produced by the tool's own all-skipped import — and the report
operation raises `ZeroDivisionError` computing the average per agent
instead of reporting a sentinel. -/
theorem pdp_C4_bug :
    findCompany c4conn.pending 1 = some ⟨1, 0, 0, 0, 0, 0, "2026-10-12"⟩ ∧
    generate_progress_report c4conn (some 1) = .error PyError.zeroDivisionError :=
  ⟨by decide, by rfl⟩

/-- Evidence for C6 (code bug): asking for a report on an id with no
baseline row raises `TypeError` (subscripting `None`) instead of returning
a failure result. -/
theorem pdp_C6_bug :
    findBaseline c6conn.pending 99 = none ∧
    generate_progress_report c6conn (some 99) = .error PyError.typeError :=
  ⟨by decide, by rfl⟩
